import Mathlib

/-!
Verification model of the BLE GATT server (`src/server.py`) of
ClimateNetTumoLabs/ble_gatt_server.

The Python source exposes a GATT object tree over D-Bus (one `Application`,
one `MyService`, a readable/writable `MyCharacteristic` and a
`NotifyCharacteristic`), interprets bytes written to the writable
characteristic as a small command protocol (`SCAN_WIFI` or a JSON
credential object), runs external tools (`iwlist`, `nmcli`) and pushes
results to a subscribed client via the notify characteristic.

The embedding below translates the source into pure Lean functions:

* external collaborators (the UTF-8 decoder `bytes.decode`, the JSON parser
  `json.loads`, and the three subprocess invocations) are fields of an
  `Env` record, since they are stdlib / process boundaries of the source;
* mutable object state becomes the `SrvState` record, threaded explicitly;
  `pushes`, `notifications` and `toolCalls` are ghost event logs recording,
  respectively, each call of `send_notification`, each emitted
  `PropertiesChanged` signal, and each external tool invocation;
* the two regular expressions of `scan_networks` are implemented directly
  as string scanners with `re.findall` semantics (`\d` is modelled as the
  ASCII digits, which is what the scanned `iwlist` output contains).
-/

namespace BleGatt

/-- D-Bus interface name constant `GATT_SERVICE_IFACE` from the source. -/
def GATT_SERVICE_IFACE : String := "org.bluez.GattService1"

/-- D-Bus interface name constant `GATT_CHRC_IFACE` from the source. -/
def GATT_CHRC_IFACE : String := "org.bluez.GattCharacteristic1"

/-- Typed property values appearing in the property maps the server hands
to BlueZ (strings, booleans, object paths, arrays of strings / paths /
bytes — bytes are modelled as `Nat`). -/
inductive PropVal
  | str (s : String)
  | bool (b : Bool)
  | path (p : String)
  | strArr (xs : List String)
  | pathArr (xs : List String)
  | byteArr (xs : List Nat)
deriving DecidableEq

/-- A parsed JSON value, the result type of the external `json.loads`.
Numbers are modelled as integers; no claim involves numeric payloads. -/
inductive JsonVal
  | null
  | bool (b : Bool)
  | num (n : Int)
  | str (s : String)
  | arr (xs : List JsonVal)
  | obj (fields : List (String × JsonVal))

/-- Python exception kinds that can be raised inside `WriteValue` or the
property accessors of the source. -/
inductive PyErr
  | unicodeDecodeError
  | jsonDecodeError
  | attributeError
  | keyError
  | dbusInvalidInterface
deriving DecidableEq

/-- Result of a `subprocess.run` invocation: return code, stdout, stderr. -/
structure ProcResult where
  returncode : Int
  stdout : String
  stderr : String

/-- Ghost record of one external tool invocation made by the dispatch code:
the `iwlist wlan0 scan` of `scan_networks`, the
`iwlist scan | grep ESSID` status line, or the `nmcli ... connect`
call carrying the credential values taken from the parsed JSON. -/
inductive ToolCall
  | iwlistScan
  | iwlistGrep
  | nmcliConnect (ssid password : JsonVal)

/-- External collaborators of `server.py`: the stdlib UTF-8 decoder and
JSON parser, and the outcomes of the three subprocess invocations.
`iwlistScanRaw` is `Except.error ()` when `subprocess.run(..., check=True)`
raises `CalledProcessError`, otherwise `Except.ok stdout`. -/
structure Env where
  decodeUtf8 : List Nat → Option String
  jsonLoads : String → Except Unit JsonVal
  iwlistScanRaw : Except Unit String
  iwlistGrep : ProcResult
  nmcli : JsonVal → JsonVal → ProcResult

/-- One emitted `PropertiesChanged` D-Bus signal: interface name, the
changed properties (property name with new byte value) and the
invalidated-properties list. -/
structure Notif where
  interface : String
  changed : List (String × List Nat)
  invalidated : List String
deriving DecidableEq

/-- The signal emitted by `send_notification`: the characteristic
interface, `Value` mapped to the new bytes, and no invalidated
properties. -/
def valueNotif (v : List Nat) : Notif := ⟨GATT_CHRC_IFACE, [("Value", v)], []⟩

/-- Mutable state of the server objects reached by `WriteValue`:
`charValue` is `MyCharacteristic.value` (the last-written value),
`notifying` / `notifyValue` are the fields of `NotifyCharacteristic`.
The remaining three fields are ghost event logs (see the file header). -/
structure SrvState where
  charValue : List Nat
  notifying : Bool
  notifyValue : List Nat
  pushes : List String
  notifications : List Notif
  toolCalls : List ToolCall

/-- Initial state from the constructors in the source:
`MyCharacteristic.value = [dbus.Byte(0x00)]`,
`NotifyCharacteristic.notifying = False`, `NotifyCharacteristic.value = []`. -/
def st0 : SrvState :=
  { charValue := [0], notifying := false, notifyValue := [], pushes := [],
    notifications := [], toolCalls := [] }

/-- UTF-8 encoding of one character, as produced by Python's
`str.encode()`. -/
def utf8Bytes (c : Char) : List Nat :=
  let n := c.toNat
  if n < 128 then [n]
  else if n < 2048 then [192 + n / 64, 128 + n % 64]
  else if n < 65536 then [224 + n / 4096, 128 + (n / 64) % 64, 128 + n % 64]
  else [240 + n / 262144, 128 + (n / 4096) % 64, 128 + (n / 64) % 64, 128 + n % 64]

/-- UTF-8 encoding of a string (`message.encode()` in the source). -/
def strBytes (s : String) : List Nat :=
  s.toList.foldr (fun c acc => utf8Bytes c ++ acc) []

/-- `NotifyCharacteristic.send_notification` (source lines 200-217): if no
client subscribed, log and return without touching state; otherwise set
the current value to the UTF-8 bytes of `message` and emit one
`PropertiesChanged` signal for `Value`.  The `pushes` ghost log records
the call itself in either case. -/
def send_notification (st : SrvState) (message : String) : SrvState :=
  let st1 := { st with pushes := st.pushes ++ [message] }
  if st1.notifying then
    let v := strBytes message
    { st1 with notifyValue := v, notifications := st1.notifications ++ [valueNotif v] }
  else st1

/-- `NotifyCharacteristic.StartNotify`: any state becomes subscribed. -/
def StartNotify (st : SrvState) : SrvState := { st with notifying := true }

/-- `NotifyCharacteristic.StopNotify`: any state becomes unsubscribed. -/
def StopNotify (st : SrvState) : SrvState := { st with notifying := false }

/-- One host subscribe/unsubscribe call. -/
inductive SubCall
  | start
  | stop
deriving DecidableEq

/-- Apply one `StartNotify` / `StopNotify` call. -/
def applySubCall (st : SrvState) : SubCall → SrvState
  | .start => StartNotify st
  | .stop => StopNotify st

/-- Run a finite sequence of subscribe/unsubscribe calls in order. -/
def runSubCalls (st : SrvState) (cs : List SubCall) : SrvState :=
  cs.foldl applySubCall st

/-- Subscription state produced by a single call viewed in isolation. -/
def callEffect : SubCall → Bool
  | .start => true
  | .stop => false

/-! ### The `scan_networks` parser (source lines 502-536) -/

/-- Whether a character belongs to the regex class `[\da-fA-F:]` of the
address pattern. -/
def isHexColon (c : Char) : Bool :=
  c.isDigit || (decide (97 ≤ c.toNat) && decide (c.toNat ≤ 102)) ||
    (decide (65 ≤ c.toNat) && decide (c.toNat ≤ 70)) || c == ':'

/-- Match a literal sequence of characters at the head of the input,
returning the rest on success. -/
def dropLit : List Char → List Char → Option (List Char)
  | [], s => some s
  | _ :: _, [] => none
  | c :: cs, d :: ds => if d = c then dropLit cs ds else none

/-- Attempt the pattern `Cell \d+ - Address: ([\da-fA-F:]{17})` at the
current position; on success return the captured 17-character address and
the input remaining after the whole match. -/
def matchCellAt (s : List Char) : Option (String × List Char) :=
  match dropLit "Cell ".toList s with
  | none => none
  | some s1 =>
    match s1 with
    | [] => none
    | c :: cs =>
      if c.isDigit then
        let s2 := cs.dropWhile Char.isDigit
        match dropLit " - Address: ".toList s2 with
        | none => none
        | some s3 =>
          let cap := s3.take 17
          if cap.length == 17 && cap.all isHexColon then
            some (String.mk cap, s3.drop 17)
          else none
      else none

/-- `re.findall` driver for the address pattern: try a match at each
position, consuming the whole match on success and advancing one
character on failure.  The fuel argument is an upper bound on the number
of scanning steps; every step strictly shrinks the input, so
`length + 1` fuel never runs out. -/
def cellFindAll : Nat → List Char → List String
  | 0, _ => []
  | _ + 1, [] => []
  | fuel + 1, s =>
    match matchCellAt s with
    | some (cap, rest) => cap :: cellFindAll fuel rest
    | none => cellFindAll fuel (s.drop 1)

/-- `cell_re.findall(output)` of the source. -/
def cellMatches (s : String) : List String :=
  cellFindAll (s.length + 1) s.toList

/-- Scan for the closing quote of `ESSID:"(.*?)"`: the lazy group matches
any characters except newline up to the first `"`.  Returns the captured
characters and the input after the closing quote, or `none` when no
closing quote occurs before a newline / end of input. -/
def takeToQuote : List Char → Option (List Char × List Char)
  | [] => none
  | c :: cs =>
    if c == '"' then some ([], cs)
    else if c == '\n' then none
    else
      match takeToQuote cs with
      | some (cap, rest) => some (c :: cap, rest)
      | none => none

/-- Attempt the pattern `ESSID:"(.*?)"` at the current position. -/
def matchEssidAt (s : List Char) : Option (String × List Char) :=
  match dropLit "ESSID:\"".toList s with
  | none => none
  | some s1 =>
    match takeToQuote s1 with
    | some (cap, rest) => some (String.mk cap, rest)
    | none => none

/-- `re.findall` driver for the ESSID pattern (same scanning discipline as
`cellFindAll`). -/
def essidFindAll : Nat → List Char → List String
  | 0, _ => []
  | _ + 1, [] => []
  | fuel + 1, s =>
    match matchEssidAt s with
    | some (cap, rest) => cap :: essidFindAll fuel rest
    | none => essidFindAll fuel (s.drop 1)

/-- `essid_re.findall(output)` of the source. -/
def essidMatches (s : String) : List String :=
  essidFindAll (s.length + 1) s.toList

/-- One record of the scan result: hardware address and network name. -/
structure Network where
  address : String
  essid : String
deriving DecidableEq

/-- The de-duplication loop of `scan_networks`: walk the zipped
(address, essid) pairs, keeping a pair only when its essid is nonempty and
not seen before, in which case the essid is added to the seen set. -/
def dedupNetworks : List String → List (String × String) → List Network
  | _, [] => []
  | seen, (addr, essid) :: rest =>
    if essid ∈ seen ∨ essid = "" then dedupNetworks seen rest
    else { address := addr, essid := essid } :: dedupNetworks (essid :: seen) rest

/-- `scan_networks` (source lines 502-536), taking the outcome of the
`iwlist wlan0 scan` subprocess as argument: on `CalledProcessError`
return `[]`; otherwise extract addresses and essids with the two regexes,
zip them positionally, and de-duplicate by essid. -/
def scan_networks : Except Unit String → List Network
  | .error _ => []
  | .ok output =>
    dedupNetworks [] ((cellMatches output).zip (essidMatches output))

/-! ### JSON helpers used by the dispatch code -/

/-- Python `dict.get` on an object built from JSON fields in order
(a later duplicate key overwrites an earlier one, as in `json.loads`). -/
def dictGet (fields : List (String × JsonVal)) (k : String) : Option JsonVal :=
  fields.foldl (fun acc p => if p.1 = k then some p.2 else acc) none

/-- Python truthiness of a JSON value (`not x` is true exactly on these). -/
def jsonFalsy : JsonVal → Bool
  | .null => true
  | .bool b => !b
  | .num n => n == 0
  | .str s => s == ""
  | .arr xs => xs.isEmpty
  | .obj fs => fs.isEmpty

/-- Python truthiness of `dict.get`'s result (`None` when absent). -/
def pyFalsy : Option JsonVal → Bool
  | none => true
  | some v => jsonFalsy v

/-- Hexadecimal digit character for `\uXXXX` escapes. -/
def hexDigit (n : Nat) : Char :=
  if n < 10 then Char.ofNat (48 + n) else Char.ofNat (87 + n)

/-- Four-digit lowercase hex rendering of a code point below 0x10000. -/
def hex4 (n : Nat) : String :=
  String.mk [hexDigit (n / 4096 % 16), hexDigit (n / 256 % 16),
    hexDigit (n / 16 % 16), hexDigit (n % 16)]

/-- JSON string escaping of one character as done by `json.dumps` with its
default `ensure_ascii=True` (characters above the basic plane would use
surrogate pairs in Python; no claim exercises them). -/
def jsonEscapeChar (c : Char) : String :=
  if c == '"' then "\\\""
  else if c == '\\' then "\\\\"
  else if c == '\n' then "\\n"
  else if c == '\t' then "\\t"
  else if c == '\r' then "\\r"
  else if c.toNat < 32 || c.toNat > 126 then "\\u" ++ hex4 c.toNat
  else String.singleton c

/-- JSON escaping of a whole string. -/
def jsonEscape (s : String) : String :=
  String.join (s.toList.map jsonEscapeChar)

/-- `json.dumps` of one network record, with the default separators and
the insertion order address-then-essid of the source dict literal. -/
def dumpsNetwork (n : Network) : String :=
  "\x7b\"address\": \"" ++ jsonEscape n.address ++ "\", \"essid\": \"" ++
    jsonEscape n.essid ++ "\"\x7d"

/-- `json.dumps(networks)` for the scan-result list. -/
def dumpsNetworks (ns : List Network) : String :=
  "[" ++ String.intercalate ", " (ns.map dumpsNetwork) ++ "]"

/-! ### The `WriteValue` dispatch (source lines 272-353) -/

/-- Whether a character is stripped by Python's `str.strip()` (ASCII
whitespace; the exotic Unicode space classes never occur in tool
output). -/
def isPySpace (c : Char) : Bool :=
  c == ' ' || c == '\t' || c == '\n' || c == '\r' || c == '\x0b' || c == '\x0c'

/-- Python `str.strip()`. -/
def pyStrip (s : String) : String :=
  String.mk (((s.toList.dropWhile isPySpace).reverse.dropWhile isPySpace).reverse)

/-- The status line computed from the `iwlist scan | grep ESSID` result
(source lines 324-329): stripped stdout on success (or a placeholder when
empty), an error line mentioning stderr on failure. -/
def grepStatus (r : ProcResult) : String :=
  if r.returncode = 0 then
    let output := pyStrip r.stdout
    if output = "" then "No ESSIDs found" else output
  else "Error: " ++ pyStrip r.stderr

/-- How the `try` block of `WriteValue` finished: it ran to the end
(`completed`), it executed one of the two early `return` statements
(`earlyReturn`), or it raised an exception that the `except` clauses
catch (`raised`). -/
inductive WriteOutcome
  | completed
  | earlyReturn
  | raised (e : PyErr)
deriving DecidableEq

/-- The body of the `try` block of `MyCharacteristic.WriteValue` (source
lines 283-344), returning the state reached together with how the block
finished.  Mirrors the source line by line: decode, the `SCAN_WIFI`
branch with its inner try/except and `return`, `json.loads`, the
`dict.get` credential extraction with its early `return`, then the
grep-status push and the `nmcli` connect with its success/failure push. -/
def tryBody (env : Env) (st : SrvState) (value : List Nat) : SrvState × WriteOutcome :=
  match env.decodeUtf8 value with
  | none => (st, .raised .unicodeDecodeError)
  | some text =>
    if text = "SCAN_WIFI" then
      let st1 := { st with toolCalls := st.toolCalls ++ [ToolCall.iwlistScan] }
      let networks := scan_networks env.iwlistScanRaw
      if networks.isEmpty then (st1, .earlyReturn)
      else (send_notification st1 (dumpsNetworks networks), .earlyReturn)
    else
      match env.jsonLoads text with
      | .error _ => (st, .raised .jsonDecodeError)
      | .ok (.obj fields) =>
        let ssid := dictGet fields "ssid"
        let password := dictGet fields "password"
        if pyFalsy ssid || pyFalsy password then (st, .earlyReturn)
        else
          let sv := ssid.getD JsonVal.null
          let pv := password.getD JsonVal.null
          let st1 := { st with toolCalls := st.toolCalls ++ [ToolCall.iwlistGrep] }
          let st2 := send_notification st1 (grepStatus env.iwlistGrep)
          let st3 := { st2 with toolCalls := st2.toolCalls ++ [ToolCall.nmcliConnect sv pv] }
          let st4 :=
            if (env.nmcli sv pv).returncode = 0 then
              send_notification st3 "✅ Connected to Wi-Fi"
            else
              send_notification st3 "❌ Failed to connect"
          (st4, .completed)
      | .ok _ => (st, .raised .attributeError)

/-- `MyCharacteristic.WriteValue` (source lines 272-353): run the `try`
block; when it raised, the `except` clauses absorb the exception and fall
through; the trailing `self.value = value` store runs on fall-through and
on normal completion, but not after the early `return` statements. -/
def WriteValue (env : Env) (st : SrvState) (value : List Nat)
    (options : List (String × String)) : SrvState :=
  match tryBody env st value with
  | (st1, .earlyReturn) => st1
  | (st1, _) => { st1 with charValue := value }

/-- `MyCharacteristic.ReadValue` (source lines 355-361): return the
last-written value; always succeeds. -/
def ReadValue (st : SrvState) (options : List (String × String)) : List Nat :=
  st.charValue

/-! ### The exposed object tree (`Application` / `MyService` /
characteristic property maps, source lines 29-270) -/

/-- State of the notify characteristic as it appears in the object tree. -/
structure NotifyState where
  notifying : Bool
  value : List Nat
deriving DecidableEq

/-- A characteristic node of the object tree: the source has exactly two
kinds, the readable/writable `MyCharacteristic` (with its flag list and
last-written value) and the `NotifyCharacteristic`. -/
inductive ChrcNode
  | writable (index : Nat) (uuid : String) (flags : List String) (value : List Nat)
  | notifyNode (index : Nat) (uuid : String) (st : NotifyState)
deriving DecidableEq

/-- D-Bus object path of a characteristic, as built in the constructors:
`f"{service.path}/char{index}"` for the writable kind and
`f"{service.path}/char_notify{index}"` for the notify kind. -/
def chrcPath (svcPath : String) : ChrcNode → String
  | .writable i _ _ _ => svcPath ++ "/char" ++ toString i
  | .notifyNode i _ _ => svcPath ++ "/char_notify" ++ toString i

/-- A GATT service node (`MyService`). -/
structure ServiceNode where
  index : Nat
  uuid : String
  primary : Bool
  characteristics : List ChrcNode

/-- `f'{Application.PATH_BASE}/service{index}'` of the source. -/
def servicePath (s : ServiceNode) : String :=
  "/org/bluez/example/service" ++ toString s.index

/-- The GATT application: the root object owning the service list. -/
structure AppNode where
  services : List ServiceNode

/-- A property map: interface name to a map from property names to typed
values (Python nested dict literals; each literal has distinct keys). -/
abbrev InterfaceMap := List (String × List (String × PropVal))

/-- Lookup in a Python dict literal with distinct keys. -/
def alookup {α : Type} (m : List (String × α)) (k : String) : Option α :=
  (m.find? (fun p => p.1 == k)).map (fun p => p.2)

/-- The inner property dict of a characteristic's `get_properties`:
the writable kind exposes `UUID`, `Service` and `Flags` (source lines
257-270 — no `Value` entry); the notify kind additionally exposes
`Value` with its current bytes (source lines 167-182). -/
def chrcInnerProps (svcPath : String) : ChrcNode → List (String × PropVal)
  | .writable _ uuid flags _ =>
    [("UUID", .str uuid), ("Service", .path svcPath), ("Flags", .strArr flags)]
  | .notifyNode _ uuid st =>
    [("UUID", .str uuid), ("Service", .path svcPath), ("Flags", .strArr ["notify"]),
     ("Value", .byteArr st.value)]

/-- `get_properties` of a characteristic: a dict with the single key
`GATT_CHRC_IFACE`. -/
def chrcGetProperties (svcPath : String) (c : ChrcNode) : InterfaceMap :=
  [(GATT_CHRC_IFACE, chrcInnerProps svcPath c)]

/-- `MyService.get_properties` (source lines 113-130). -/
def serviceGetProperties (s : ServiceNode) : InterfaceMap :=
  [(GATT_SERVICE_IFACE,
    [("UUID", .str s.uuid), ("Primary", .bool s.primary),
     ("Characteristics", .pathArr (s.characteristics.map (chrcPath (servicePath s))))])]

/-- Whether a Python dict (modelled as an ordered association list) holds
a key. -/
def dictContains {α : Type} (d : List (String × α)) (k : String) : Bool :=
  d.any (fun p => p.1 == k)

/-- Python `d[k] = v`: overwrite in place when the key exists, otherwise
append preserving insertion order. -/
def dictInsert {α : Type} (d : List (String × α)) (k : String) (v : α) :
    List (String × α) :=
  if dictContains d k then d.map (fun p => if p.1 == k then (p.1, v) else p)
  else d ++ [(k, v)]

/-- A sequence of Python dict assignments starting from `d`. -/
def dictInsertAll {α : Type} (d : List (String × α)) (l : List (String × α)) :
    List (String × α) :=
  l.foldl (fun acc p => dictInsert acc p.1 p.2) d

/-- The (path, property-map) pairs enumerated by the loop of
`Application.GetManagedObjects`: for each service, first the service
itself, then each of its characteristics in order. -/
def appNodes (app : AppNode) : List (String × InterfaceMap) :=
  app.services.foldr
    (fun s acc =>
      (servicePath s, serviceGetProperties s) ::
        s.characteristics.map
          (fun c => (chrcPath (servicePath s) c, chrcGetProperties (servicePath s) c)) ++ acc)
    []

/-- The paths declared by the application's object tree (root excluded),
in enumeration order. -/
def allPaths (app : AppNode) : List String :=
  (appNodes app).map Prod.fst

/-- `Application.GetManagedObjects` (source lines 52-62): build the
`mapped` dict by successive assignments. -/
def GetManagedObjects (app : AppNode) : List (String × InterfaceMap) :=
  dictInsertAll [] (appNodes app)

/-- UUID of the writable characteristic constructed in `MyService`. -/
def myCharUuid : String := "12345678-1234-5678-1234-56789abcdef0"

/-- Flags of the writable characteristic constructed in `MyService`. -/
def myCharFlags : List String := ["read", "write-without-response"]

/-- UUID of the notify characteristic constructed in `MyService`. -/
def notifyUuid : String := "12345678-1234-5678-1234-56789abcdef2"

/-- UUID of the service constructed in `MyService.__init__`. -/
def myServiceUuid : String := "12345678-1234-5678-1234-56789abcdef1"

/-- Path of service 0 of the application. -/
def service0Path : String := "/org/bluez/example/service0"

/-- The writable characteristic as constructed in `MyService.__init__`
(index 0), with last-written value `v`. -/
def theWritableChar (v : List Nat) : ChrcNode :=
  .writable 0 myCharUuid myCharFlags v

/-- The object tree built by `Application.__init__`: one primary service
of index 0 holding the writable characteristic (index 0) and the notify
characteristic (index 1); `cv` and `ns` are the live mutable values. -/
def mkApplication (cv : List Nat) (ns : NotifyState) : AppNode :=
  { services := [
      { index := 0, uuid := myServiceUuid, primary := true,
        characteristics := [theWritableChar cv, ChrcNode.notifyNode 1 notifyUuid ns] }] }

/-- `MyCharacteristic.Get` (source lines 363-368):
`self.get_properties()[interface][prop]`, a double dict subscript that
raises `KeyError` when either key is absent. -/
def myCharGet (svcPath : String) (cv : List Nat) (uuid : String) (flags : List String)
    (iface prop : String) : Except PyErr PropVal :=
  match alookup (chrcGetProperties svcPath (ChrcNode.writable 0 uuid flags cv)) iface with
  | none => Except.error PyErr.keyError
  | some m =>
    match alookup m prop with
    | none => Except.error PyErr.keyError
    | some v => Except.ok v

/-- `MyCharacteristic.GetAll` (source lines 370-378): explicit interface
check raising `DBusException('Invalid interface')` on mismatch, then the
dict subscript. -/
def myCharGetAll (svcPath : String) (cv : List Nat) (uuid : String) (flags : List String)
    (iface : String) : Except PyErr (List (String × PropVal)) :=
  if iface ≠ GATT_CHRC_IFACE then Except.error PyErr.dbusInvalidInterface
  else
    match alookup (chrcGetProperties svcPath (ChrcNode.writable 0 uuid flags cv)) iface with
    | none => Except.error PyErr.keyError
    | some m => Except.ok m

/-- Whether an `Except` computation failed. -/
def isErr {ε α : Type} : Except ε α → Bool
  | .error _ => true
  | .ok _ => false

/-! ### Concrete fixtures used by witnesses and counterexamples -/

/-- Strict decoding of a byte list as ASCII: the restriction of Python's
`bytes.decode('utf-8')` to the inputs exercised below (pure-ASCII byte
lists decode to the corresponding string; a byte ≥ 0x80 such as 0xFF,
which is never a valid UTF-8 leading byte on its own, fails). -/
def asciiDecode (bs : List Nat) : Option String :=
  if bs.all (fun b => decide (b < 128)) then
    some (String.mk (bs.map Char.ofNat))
  else none

/-- The literal text `{"ssid":"x"}` (a credential object with no
password key). -/
def ssidOnlyText : String := "\x7b\"ssid\":\"x\"\x7d"

/-- The literal text `{"ssid":"Home","password":"secret"}`. -/
def credText : String := "\x7b\"ssid\":\"Home\",\"password\":\"secret\"\x7d"

/-- A concrete instantiation of the external `json.loads` agreeing with
Python on every input exercised by the witnesses below: the two JSON
object literals parse to the corresponding objects, anything else
(in particular the text `not json`) raises `JSONDecodeError`. -/
def jsonLoadsFixture : String → Except Unit JsonVal := fun s =>
  if s = ssidOnlyText then Except.ok (.obj [("ssid", .str "x")])
  else if s = credText then
    Except.ok (.obj [("ssid", .str "Home"), ("password", .str "secret")])
  else Except.error ()

/-- Environment whose scan tool fails and whose connect tool succeeds. -/
def envScanFail : Env :=
  { decodeUtf8 := asciiDecode, jsonLoads := jsonLoadsFixture,
    iwlistScanRaw := Except.error (), iwlistGrep := ⟨0, "", ""⟩,
    nmcli := fun _ _ => ⟨0, "", ""⟩ }

/-- Environment whose connect tool reports failure. -/
def envConnectFail : Env :=
  { decodeUtf8 := asciiDecode, jsonLoads := jsonLoadsFixture,
    iwlistScanRaw := Except.error (), iwlistGrep := ⟨0, "", ""⟩,
    nmcli := fun _ _ => ⟨10, "", "wrong password"⟩ }

/-- UTF-8 bytes of the `SCAN_WIFI` command. -/
def scanCmdBytes : List Nat := strBytes "SCAN_WIFI"

/-- UTF-8 bytes of the text `not json`. -/
def notJsonBytes : List Nat := strBytes "not json"

/-- UTF-8 bytes of the missing-password object literal. -/
def ssidOnlyBytes : List Nat := strBytes ssidOnlyText

/-- UTF-8 bytes of the full credential object literal. -/
def credBytes : List Nat := strBytes credText

/-- Raw scan text with two cells sharing one essid (different addresses)
and a third cell with an empty essid. -/
def rawDupText : String :=
  "Cell 01 - Address: 11:22:33:44:55:66\n          ESSID:\"net\"\n" ++
  "Cell 02 - Address: AA:BB:CC:DD:EE:FF\n          ESSID:\"net\"\n" ++
  "Cell 03 - Address: 77:88:99:AA:BB:CC\n          ESSID:\"\"\n"

/-- Raw scan text whose first cell has no ESSID line: the extractor pairs
the first address with the second cell's name. -/
def rawCrossText : String :=
  "Cell 01 - Address: AA:BB:CC:DD:EE:01\n" ++
  "Cell 02 - Address: AA:BB:CC:DD:EE:02\n          ESSID:\"net2\"\n"

/-! ## Helper lemmas -/

/-- `send_notification` only touches the notify value and the event logs:
the last-written value, the subscription flag and the tool-call log are
unchanged. -/
theorem send_notification_frame (st : SrvState) (m : String) :
    (send_notification st m).charValue = st.charValue
    ∧ (send_notification st m).notifying = st.notifying
    ∧ (send_notification st m).toolCalls = st.toolCalls := by
  unfold send_notification
  by_cases h : st.notifying <;> simp [h]

/-- The `try` block of `WriteValue` never mutates the last-written value;
only the trailing store does. -/
theorem tryBody_charValue (env : Env) (st : SrvState) (value : List Nat) :
    (tryBody env st value).1.charValue = st.charValue := by
  unfold tryBody send_notification
  dsimp only
  repeat' split <;> try rfl

/-! ## Claim C1 -/

/-- C1, counterexample to the claim as stated: writing the bytes of
`SCAN_WIFI` (with the scan tool failing, so dispatch takes the early
`return` of the `SCAN_WIFI` branch) does not store the written bytes, and
`ReadValue` immediately afterwards does not return them — the last-written
value is not updated unconditionally. -/
theorem writeValue_unconditional_store_cex :
    ReadValue (WriteValue envScanFail st0 scanCmdBytes []) [] ≠ scanCmdBytes := by
  decide

/-- C1 (amended): `WriteValue` always returns normally to the host — in
particular every exception raised during dispatch is absorbed — and it
stores the written bytes as the last-written value, with `ReadValue`
returning exactly them afterwards, whenever the `try` block completes or
raises; only the two early `return` paths (a `SCAN_WIFI` command, or a
parsed JSON object whose `ssid` or `password` is missing or empty) skip
the store and leave the last-written value unchanged. -/
theorem writeValue_store_unless_early_return (env : Env) (st : SrvState)
    (value : List Nat) (options : List (String × String)) :
    ((tryBody env st value).2 ≠ WriteOutcome.earlyReturn →
      ReadValue (WriteValue env st value options) options = value)
    ∧ ((tryBody env st value).2 = WriteOutcome.earlyReturn →
      (WriteValue env st value options).charValue = st.charValue) := by
  have hcv := tryBody_charValue env st value
  rcases htb : tryBody env st value with ⟨st1, oc⟩
  rw [htb] at hcv
  constructor
  · intro h
    cases oc with
    | earlyReturn => exact absurd rfl h
    | completed => simp [WriteValue, ReadValue, htb]
    | raised e => simp [WriteValue, ReadValue, htb]
  · intro h
    cases oc with
    | earlyReturn => simpa [WriteValue, htb] using hcv
    | completed => simp at h
    | raised e => simp at h

/-- C1 witness: a write of the non-UTF-8 byte 0xFF raises a decode error,
which is absorbed, and the value is stored and read back. -/
theorem writeValue_store_unless_early_return_w :
    ReadValue (WriteValue envScanFail st0 [255] []) [] = [255] :=
  (writeValue_store_unless_early_return envScanFail st0 [255] []).1 (by decide)

/-! ## Claim C2 -/

/-- C2, counterexample to the claim as stated: writing the bytes of
`{"ssid":"x"}` (password key missing) leaves the last-written value
unchanged — the raw bytes are not stored in this case. -/
theorem writeValue_missing_password_store_cex :
    (WriteValue envScanFail st0 ssidOnlyBytes []).charValue ≠ ssidOnlyBytes := by
  decide

/-- C2 (amended): writing non-UTF-8 bytes, the text `not json`, or the
object `{"ssid":"x"}` missing its password each push zero notifications
and invoke no external tool; the last-written value is updated with the
raw bytes in the first two cases (the decode / JSON errors are caught and
the store still runs), but in the missing-password case the early
`return` skips the store and the whole state is unchanged. -/
theorem writeValue_bad_inputs (env : Env) (st : SrvState) (bs1 bs2 bs3 : List Nat)
    (opts : List (String × String))
    (h1 : env.decodeUtf8 bs1 = none)
    (h2 : env.decodeUtf8 bs2 = some "not json")
    (h2p : env.jsonLoads "not json" = Except.error ())
    (h3 : env.decodeUtf8 bs3 = some ssidOnlyText)
    (h3p : env.jsonLoads ssidOnlyText = Except.ok (JsonVal.obj [("ssid", JsonVal.str "x")])) :
    WriteValue env st bs1 opts = { st with charValue := bs1 }
    ∧ WriteValue env st bs2 opts = { st with charValue := bs2 }
    ∧ WriteValue env st bs3 opts = st := by
  refine ⟨?_, ?_, ?_⟩
  · simp [WriteValue, tryBody, h1]
  · have hne : ("not json" : String) = "SCAN_WIFI" ↔ False := by simp
    simp [WriteValue, tryBody, h2, hne, h2p]
  · have hne : ssidOnlyText = "SCAN_WIFI" ↔ False := by decide
    have hget : pyFalsy (dictGet [("ssid", JsonVal.str "x")] "password") = true := rfl
    simp [WriteValue, tryBody, h3, hne, h3p, hget]

/-- C2 witness: the three writes applied in the fixture environment at
the initial state. -/
theorem writeValue_bad_inputs_w :
    WriteValue envScanFail st0 [255] [] = { st0 with charValue := [255] }
    ∧ WriteValue envScanFail st0 notJsonBytes [] = { st0 with charValue := notJsonBytes }
    ∧ WriteValue envScanFail st0 ssidOnlyBytes [] = st0 :=
  writeValue_bad_inputs envScanFail st0 [255] notJsonBytes ssidOnlyBytes []
    (by decide) (by decide) rfl (by decide) rfl

/-! ## Claim C3 -/

/-- C3: while subscribed, a push replaces the current value with exactly
the UTF-8 bytes of the pushed message and emits exactly one
`PropertiesChanged` notification for `Value` (no dedup: this holds even
when the bytes equal the previous value); while unsubscribed, a push
mutates neither the current value nor the notification log and returns
normally — hence the current value only ever changes while subscribed. -/
theorem sendNotification_push_spec (st : SrvState) (m : String) :
    (st.notifying = true →
      send_notification st m =
        { st with notifyValue := strBytes m, pushes := st.pushes ++ [m],
                  notifications := st.notifications ++ [valueNotif (strBytes m)] })
    ∧ (st.notifying = false →
      send_notification st m = { st with pushes := st.pushes ++ [m] }
      ∧ (send_notification st m).notifyValue = st.notifyValue
      ∧ (send_notification st m).notifications = st.notifications) := by
  constructor
  · intro h
    simp [send_notification, h]
  · intro h
    refine ⟨?_, ?_, ?_⟩ <;> simp [send_notification, h]

/-- C3 witness: a subscribed push of `hi` sets the value to its bytes and
emits one notification; an unsubscribed push at the initial state leaves
the value and the notification log unchanged. -/
theorem sendNotification_push_spec_w :
    (send_notification (StartNotify st0) "hi").notifyValue = strBytes "hi"
    ∧ (send_notification st0 "hi").notifyValue = st0.notifyValue := by
  have h1 := (sendNotification_push_spec (StartNotify st0) "hi").1 rfl
  have h2 := (sendNotification_push_spec st0 "hi").2 rfl
  exact ⟨by rw [h1], h2.2.1⟩

/-! ## Claim C5 -/

/-- C5, counterexample to the claim as stated: the writable
characteristic's flag set contains `read`, yet its property map has no
`Value` entry. -/
theorem writable_value_entry_cex :
    "read" ∈ myCharFlags ∧
    (alookup (chrcGetProperties service0Path (theWritableChar [0])) GATT_CHRC_IFACE).bind
      (fun m => alookup m "Value") = none := by
  decide

/-- C5 (amended): the property map of the readable/writable characteristic
consists of exactly the `UUID`, `Service` and `Flags` entries — a `Value`
entry is never included, even though the flag set contains `read`. -/
theorem writable_props_no_value (svcPath : String) (i : Nat) (uuid : String)
    (flags : List String) (v : List Nat) :
    chrcGetProperties svcPath (ChrcNode.writable i uuid flags v) =
      [(GATT_CHRC_IFACE,
        [("UUID", PropVal.str uuid), ("Service", PropVal.path svcPath),
         ("Flags", PropVal.strArr flags)])] := rfl

/-! ## Claim C9 -/

/-- C9: `StartNotify` and `StopNotify` are idempotent — after any
nonempty sequence of subscribe/unsubscribe calls, from any initial state,
the subscription state equals the effect of the last call alone. -/
theorem subCalls_last_call_wins (st : SrvState) (cs : List SubCall) (h : cs ≠ []) :
    (runSubCalls st cs).notifying = callEffect (cs.getLast h) := by
  induction cs generalizing st with
  | nil => exact absurd rfl h
  | cons c rest ih =>
    cases rest with
    | nil => cases c <;> rfl
    | cons c2 rest2 =>
      have h2 : c2 :: rest2 ≠ [] := by simp
      calc (runSubCalls st (c :: c2 :: rest2)).notifying
          = (runSubCalls (applySubCall st c) (c2 :: rest2)).notifying := rfl
        _ = callEffect ((c2 :: rest2).getLast h2) := ih (applySubCall st c) h2
        _ = callEffect ((c :: c2 :: rest2).getLast h) := by
              rw [List.getLast_cons h2]

/-- C9 witness: a concrete call sequence ending in `StartNotify` leaves
the characteristic subscribed regardless of the interleaved calls. -/
theorem subCalls_last_call_wins_w :
    (runSubCalls st0 [SubCall.start, SubCall.stop, SubCall.start]).notifying = true := by
  have h := subCalls_last_call_wins st0 [SubCall.start, SubCall.stop, SubCall.start]
    (by simp)
  simpa using h

/-! ## Claim C4 -/

/-- C4: a credential-apply command (a decoded JSON object with non-empty
`ssid` and `password`) performs exactly two pushes — the best-effort
grep-status line, then exactly one connect-result marker, the success
marker when `nmcli` returns 0 and the failure marker otherwise; while
subscribed exactly those two notifications are emitted; the tool-call
log records the status scan and one connect invocation with the
credential; and the host-facing write still completes and stores the
bytes. -/
theorem credential_dispatch_spec (env : Env) (st : SrvState) (bs : List Nat)
    (opts : List (String × String)) (t : String) (fields : List (String × JsonVal))
    (sv pv : JsonVal)
    (hdec : env.decodeUtf8 bs = some t)
    (hne : t ≠ "SCAN_WIFI")
    (hparse : env.jsonLoads t = Except.ok (JsonVal.obj fields))
    (hs : dictGet fields "ssid" = some sv)
    (hp : dictGet fields "password" = some pv)
    (hsf : jsonFalsy sv = false)
    (hpf : jsonFalsy pv = false) :
    (WriteValue env st bs opts).pushes =
      st.pushes ++ [grepStatus env.iwlistGrep,
        if (env.nmcli sv pv).returncode = 0 then "✅ Connected to Wi-Fi"
        else "❌ Failed to connect"]
    ∧ (st.notifying = true →
        (WriteValue env st bs opts).notifications =
          st.notifications ++ [valueNotif (strBytes (grepStatus env.iwlistGrep)),
            valueNotif (strBytes (if (env.nmcli sv pv).returncode = 0 then
              "✅ Connected to Wi-Fi" else "❌ Failed to connect"))])
    ∧ (WriteValue env st bs opts).charValue = bs
    ∧ (WriteValue env st bs opts).toolCalls =
        st.toolCalls ++ [ToolCall.iwlistGrep, ToolCall.nmcliConnect sv pv] := by
  have hfal : (pyFalsy (dictGet fields "ssid") || pyFalsy (dictGet fields "password"))
      = false := by
    rw [hs, hp]
    simp [pyFalsy, hsf, hpf]
  by_cases hr : (env.nmcli sv pv).returncode = 0 <;>
    by_cases hn : st.notifying = true <;>
      simp [WriteValue, tryBody, hdec, hne, hparse, hs, hp, hfal, hr, hn,
        send_notification, valueNotif, pyFalsy, hsf, hpf]

/-- C4 witness: dispatching `{"ssid":"Home","password":"secret"}` in the
fixture environments — on connect success the pushes are the status line
and exactly one success marker; on failure, the status line and exactly
one failure marker. -/
theorem credential_dispatch_spec_w :
    (WriteValue envScanFail st0 credBytes []).pushes =
      ["No ESSIDs found", "✅ Connected to Wi-Fi"]
    ∧ (WriteValue envConnectFail st0 credBytes []).pushes =
      ["No ESSIDs found", "❌ Failed to connect"] := by
  have hok := credential_dispatch_spec envScanFail st0 credBytes [] credText
    [("ssid", JsonVal.str "Home"), ("password", JsonVal.str "secret")]
    (JsonVal.str "Home") (JsonVal.str "secret")
    (by decide) (by decide) rfl rfl rfl rfl rfl
  have hfail := credential_dispatch_spec envConnectFail st0 credBytes [] credText
    [("ssid", JsonVal.str "Home"), ("password", JsonVal.str "secret")]
    (JsonVal.str "Home") (JsonVal.str "secret")
    (by decide) (by decide) rfl rfl rfl rfl rfl
  exact ⟨hok.1.trans (by decide), hfail.1.trans (by decide)⟩

/-! ## Claim C8 -/

/-- C8: `Get` and `GetAll` both fail when the requested interface differs
from the declared GATT characteristic interface (`Get` through the dict
`KeyError`, `GetAll` through the explicit invalid-interface fault);
for the matching interface `GetAll` returns the full property map and
`Get` returns the value of any property present in it, as pure lookups. -/
theorem charGet_getAll_iface_spec (svcPath : String) (cv : List Nat) (uuid : String)
    (flags : List String) (iface prop : String) :
    (iface ≠ GATT_CHRC_IFACE →
      isErr (myCharGet svcPath cv uuid flags iface prop) = true
      ∧ isErr (myCharGetAll svcPath cv uuid flags iface) = true)
    ∧ myCharGetAll svcPath cv uuid flags GATT_CHRC_IFACE =
        Except.ok (chrcInnerProps svcPath (ChrcNode.writable 0 uuid flags cv))
    ∧ (∀ v, alookup (chrcInnerProps svcPath (ChrcNode.writable 0 uuid flags cv)) prop
          = some v →
        myCharGet svcPath cv uuid flags GATT_CHRC_IFACE prop = Except.ok v) := by
  refine ⟨?_, ?_, ?_⟩
  · intro h
    have hb : (GATT_CHRC_IFACE == iface) = false := by
      simp only [beq_eq_false_iff_ne, ne_eq]
      exact fun hh => h hh.symm
    constructor
    · simp [myCharGet, alookup, chrcGetProperties, List.find?, hb, isErr]
    · simp [myCharGetAll, h, isErr]
  · simp [myCharGetAll, chrcGetProperties, alookup, List.find?]
  · intro v hv
    show (match alookup (chrcInnerProps svcPath (ChrcNode.writable 0 uuid flags cv)) prop with
      | none => Except.error PyErr.keyError
      | some v => Except.ok v) = Except.ok v
    rw [hv]

/-- C8 witness: a concrete mismatching interface makes both accessors
fail, and `Get` of `UUID` under the matching interface returns it. -/
theorem charGet_getAll_iface_spec_w :
    isErr (myCharGet service0Path [0] myCharUuid myCharFlags "org.bluez.Adapter1" "UUID")
      = true
    ∧ isErr (myCharGetAll service0Path [0] myCharUuid myCharFlags "org.bluez.Adapter1")
      = true
    ∧ myCharGet service0Path [0] myCharUuid myCharFlags GATT_CHRC_IFACE "UUID"
      = Except.ok (PropVal.str myCharUuid) := by
  have h := charGet_getAll_iface_spec service0Path [0] myCharUuid myCharFlags
    "org.bluez.Adapter1" "UUID"
  exact ⟨(h.1 (by decide)).1, (h.1 (by decide)).2, h.2.2 (PropVal.str myCharUuid) rfl⟩

/-! ## Claim C6 -/

/-- Membership in a concatenation of dicts. -/
theorem dictContains_append {α : Type} (d e : List (String × α)) (k : String) :
    dictContains (d ++ e) k = (dictContains d k || dictContains e k) := by
  simp [dictContains, List.any_append]

/-- Assigning a fresh key appends the binding, preserving order. -/
theorem dictInsert_fresh {α : Type} (d : List (String × α)) (k : String) (v : α)
    (h : dictContains d k = false) : dictInsert d k v = d ++ [(k, v)] := by
  simp [dictInsert, h]

/-- A run of dict assignments whose keys are pairwise distinct and absent
from the starting dict appends all the bindings in order. -/
theorem dictInsertAll_fresh {α : Type} (l : List (String × α)) :
    ∀ d : List (String × α), (l.map Prod.fst).Nodup →
      (∀ k, k ∈ l.map Prod.fst → dictContains d k = false) →
      dictInsertAll d l = d ++ l := by
  induction l with
  | nil => intro d _ _; simp [dictInsertAll]
  | cons p rest ih =>
    intro d hnd hfresh
    have hfp : dictContains d p.1 = false := hfresh p.1 (by simp)
    have step : dictInsertAll d (p :: rest)
        = dictInsertAll (dictInsert d p.1 p.2) rest := rfl
    rw [step, dictInsert_fresh d p.1 p.2 hfp]
    have hnd2 : (rest.map Prod.fst).Nodup := (List.nodup_cons.mp (by simpa using hnd)).2
    have hhead : p.1 ∉ rest.map Prod.fst := (List.nodup_cons.mp (by simpa using hnd)).1
    have hfresh2 : ∀ k, k ∈ rest.map Prod.fst →
        dictContains (d ++ [(p.1, p.2)]) k = false := by
      intro k hk
      rw [dictContains_append]
      have h1 : dictContains d k = false := hfresh k (by simp [hk])
      have h2 : dictContains [(p.1, p.2)] k = false := by
        simp [dictContains]
        exact fun hh => hhead (hh ▸ hk)
      simp [h1, h2]
    rw [ih (d ++ [(p.1, p.2)]) hnd2 hfresh2]
    simp

/-- C6: `GetManagedObjects` enumerates exactly one entry per declared
service and per characteristic (transitively, the application root
excluded): with zero services it returns the empty mapping and never
errors; whenever the declared paths are distinct — as they are in the
constructed application — the result is exactly the ordered list of
(path, property map) pairs, so its key list equals the declared path
list; and on the application built by the source the three entries are
computed from the live state at call time, the notify characteristic's
`Value` being its current value, identically on every call with no state
change in between. -/
theorem getManagedObjects_spec :
    (∀ app : AppNode, app.services = [] → GetManagedObjects app = [])
    ∧ (∀ app : AppNode, (allPaths app).Nodup →
        GetManagedObjects app = appNodes app
        ∧ (GetManagedObjects app).map Prod.fst = allPaths app)
    ∧ (∀ (cv : List Nat) (ns : NotifyState),
        GetManagedObjects (mkApplication cv ns) =
          [("/org/bluez/example/service0",
            [(GATT_SERVICE_IFACE,
              [("UUID", PropVal.str myServiceUuid), ("Primary", PropVal.bool true),
               ("Characteristics", PropVal.pathArr
                 ["/org/bluez/example/service0/char0",
                  "/org/bluez/example/service0/char_notify1"])])]),
           ("/org/bluez/example/service0/char0",
            [(GATT_CHRC_IFACE,
              [("UUID", PropVal.str myCharUuid), ("Service", PropVal.path "/org/bluez/example/service0"),
               ("Flags", PropVal.strArr myCharFlags)])]),
           ("/org/bluez/example/service0/char_notify1",
            [(GATT_CHRC_IFACE,
              [("UUID", PropVal.str notifyUuid), ("Service", PropVal.path "/org/bluez/example/service0"),
               ("Flags", PropVal.strArr ["notify"]),
               ("Value", PropVal.byteArr ns.value)])])]) := by
  refine ⟨?_, ?_, ?_⟩
  · intro app h
    simp [GetManagedObjects, appNodes, h, dictInsertAll]
  · intro app hnd
    have heq : GetManagedObjects app = appNodes app := by
      have := dictInsertAll_fresh (appNodes app) [] hnd (fun k _ => rfl)
      simpa [GetManagedObjects] using this
    exact ⟨heq, by rw [heq]; rfl⟩
  · intro cv ns
    have h3 : ("/org/bluez/example/service" ++ toString (0 : Nat) ++ "/char" ++
        toString (0 : Nat) : String) = "/org/bluez/example/service0/char0" := rfl
    have h4 : ("/org/bluez/example/service" ++ toString (0 : Nat) ++ "/char_notify" ++
        toString (1 : Nat) : String) = "/org/bluez/example/service0/char_notify1" := rfl
    have h2 : ("/org/bluez/example/service" ++ toString (0 : Nat) : String)
        = "/org/bluez/example/service0" := rfl
    simp only [GetManagedObjects, appNodes, mkApplication, servicePath, chrcPath,
      theWritableChar, serviceGetProperties, chrcGetProperties, chrcInnerProps,
      List.map_cons, List.map_nil, List.foldr_cons, List.foldr_nil]
    rw [h3, h4, h2]
    rfl

/-- C6 witness: an application with no services yields the empty mapping,
and the constructed application (whose three paths are distinct) yields
exactly one entry per node. -/
theorem getManagedObjects_spec_w :
    GetManagedObjects ⟨[]⟩ = []
    ∧ GetManagedObjects (mkApplication [0] ⟨false, []⟩)
      = appNodes (mkApplication [0] ⟨false, []⟩) := by
  have h := getManagedObjects_spec
  exact ⟨h.1 ⟨[]⟩ rfl, (h.2.1 (mkApplication [0] ⟨false, []⟩) (by decide)).1⟩

/-! ## Claims C7 and C10: properties of the scan-result parser -/

/-- Every record produced by the de-duplication loop has an essid that is
nonempty and not in the incoming seen set, and originates from the first
zipped pair carrying that essid. -/
theorem dedupNetworks_first_occurrence :
    ∀ (pairs : List (String × String)) (seen : List String) (r : Network),
      r ∈ dedupNetworks seen pairs →
      r.essid ∉ seen ∧ r.essid ≠ ""
      ∧ ∃ i, pairs.get? i = some (r.address, r.essid)
          ∧ ∀ j, j < i → ∀ p, pairs.get? j = some p → p.2 ≠ r.essid := by
  intro pairs
  induction pairs with
  | nil => intro seen r hr; simp [dedupNetworks] at hr
  | cons pe rest ih =>
    rcases pe with ⟨a, e⟩
    intro seen r hr
    rw [dedupNetworks] at hr
    by_cases hc : e ∈ seen ∨ e = ""
    · rw [if_pos hc] at hr
      obtain ⟨hseen, hne, i, hi, hj⟩ := ih seen r hr
      refine ⟨hseen, hne, i + 1, by simpa using hi, ?_⟩
      intro j hj2 p hp
      cases j with
      | zero =>
        simp only [List.get?_cons_zero, Option.some_inj] at hp
        subst hp
        intro hpe
        simp only at hpe
        rcases hc with hc1 | hc1
        · exact hseen (hpe ▸ hc1)
        · exact hne (hpe ▸ hc1)
      | succ j2 =>
        exact hj j2 (by omega) p (by simpa using hp)
    · rw [if_neg hc] at hr
      push_neg at hc
      obtain ⟨hs1, hs2⟩ := hc
      rcases List.mem_cons.mp hr with hr1 | hr2
      · subst hr1
        exact ⟨hs1, hs2, 0, rfl, by intro j hj; omega⟩
      · obtain ⟨hseen, hne, i, hi, hj⟩ := ih (e :: seen) r hr2
        have hre : r.essid ≠ e := fun hh => hseen (hh ▸ List.mem_cons_self e seen)
        refine ⟨fun hh => hseen (List.mem_cons_of_mem e hh), hne, i + 1,
          by simpa using hi, ?_⟩
        intro j hj2 p hp
        cases j with
        | zero =>
          simp only [List.get?_cons_zero, Option.some_inj] at hp
          subst hp
          intro hpe
          exact hre hpe.symm
        | succ j2 =>
          exact hj j2 (by omega) p (by simpa using hp)

/-- The essids of the de-duplicated output are pairwise distinct. -/
theorem dedupNetworks_nodup :
    ∀ (pairs : List (String × String)) (seen : List String),
      ((dedupNetworks seen pairs).map Network.essid).Nodup := by
  intro pairs
  induction pairs with
  | nil => intro seen; simp [dedupNetworks]
  | cons pe rest ih =>
    rcases pe with ⟨a, e⟩
    intro seen
    rw [dedupNetworks]
    by_cases hc : e ∈ seen ∨ e = ""
    · rw [if_pos hc]; exact ih seen
    · rw [if_neg hc]
      simp only [List.map_cons, List.nodup_cons]
      refine ⟨?_, ih (e :: seen)⟩
      intro hmem
      obtain ⟨r, hr, hre⟩ := List.mem_map.mp hmem
      exact (dedupNetworks_first_occurrence rest (e :: seen) r hr).1
        (hre ▸ List.mem_cons_self e seen)

/-- The de-duplicated output, viewed as (address, essid) pairs, is a
subsequence of the zipped input: records keep their first-seen order. -/
theorem dedupNetworks_sublist :
    ∀ (pairs : List (String × String)) (seen : List String),
      List.Sublist ((dedupNetworks seen pairs).map (fun r => (r.address, r.essid)))
        pairs := by
  intro pairs
  induction pairs with
  | nil => intro seen; simp [dedupNetworks]
  | cons pe rest ih =>
    rcases pe with ⟨a, e⟩
    intro seen
    rw [dedupNetworks]
    by_cases hc : e ∈ seen ∨ e = ""
    · rw [if_pos hc]; exact (ih seen).cons (a, e)
    · rw [if_neg hc]
      simpa using (ih (e :: seen)).cons₂ (a, e)

/-- De-duplication never produces more records than input pairs. -/
theorem dedupNetworks_length_le :
    ∀ (pairs : List (String × String)) (seen : List String),
      (dedupNetworks seen pairs).length ≤ pairs.length := by
  intro pairs
  induction pairs with
  | nil => intro seen; simp [dedupNetworks]
  | cons pe rest ih =>
    rcases pe with ⟨a, e⟩
    intro seen
    rw [dedupNetworks]
    by_cases hc : e ∈ seen ∨ e = ""
    · rw [if_pos hc]
      exact le_trans (ih seen) (by simp)
    · rw [if_neg hc]
      simpa using ih (e :: seen)

/-- The i-th element of a zip is the pair of the i-th elements. -/
theorem zip_get?_components {α β : Type} :
    ∀ (l1 : List α) (l2 : List β) (i : Nat) (p : α × β),
      (l1.zip l2).get? i = some p → l1.get? i = some p.1 ∧ l2.get? i = some p.2 := by
  intro l1
  induction l1 with
  | nil => intro l2 i p h; simp [List.zip] at h
  | cons x xs ih =>
    intro l2 i p h
    cases l2 with
    | nil => simp [List.zip] at h
    | cons y ys =>
      cases i with
      | zero =>
        simp only [List.zip_cons_cons, List.get?_cons_zero, Option.some_inj] at h
        subst h
        exact ⟨rfl, rfl⟩
      | succ j =>
        have := ih ys j p (by simpa using h)
        simpa using this

set_option maxRecDepth 200000 in
/-- C7: the scan-result parser never fails — a failing scan tool yields
`[]` — and for every raw text it keeps only the first occurrence per
unique non-empty network name, in first-seen order (its output is a
subsequence of the zipped matches, each record coming from the first
pair with its essid); concretely, a raw text whose two first cells share
one essid and whose third cell has an empty essid yields the single
record with the first address. -/
theorem scanNetworks_dedup_spec :
    scan_networks (Except.error ()) = []
    ∧ (∀ raw : String,
        ((scan_networks (Except.ok raw)).map Network.essid).Nodup
        ∧ (∀ r, r ∈ scan_networks (Except.ok raw) → r.essid ≠ "")
        ∧ List.Sublist
            ((scan_networks (Except.ok raw)).map (fun r => (r.address, r.essid)))
            ((cellMatches raw).zip (essidMatches raw))
        ∧ (∀ r, r ∈ scan_networks (Except.ok raw) →
            ∃ i, ((cellMatches raw).zip (essidMatches raw)).get? i
                = some (r.address, r.essid)
              ∧ ∀ j, j < i →
                  ∀ p, ((cellMatches raw).zip (essidMatches raw)).get? j = some p →
                    p.2 ≠ r.essid))
    ∧ scan_networks (Except.ok rawDupText) = [⟨"11:22:33:44:55:66", "net"⟩] := by
  refine ⟨rfl, ?_, by decide⟩
  intro raw
  refine ⟨dedupNetworks_nodup _ [], ?_, dedupNetworks_sublist _ [], ?_⟩
  · intro r hr
    exact (dedupNetworks_first_occurrence _ [] r hr).2.1
  · intro r hr
    exact (dedupNetworks_first_occurrence _ [] r hr).2.2

set_option maxRecDepth 200000 in
/-- C7 witness: on the duplicate-essid raw text the parser's single
record has a nonempty essid, obtained through the general theorem at a
concrete input. -/
theorem scanNetworks_dedup_spec_w :
    (⟨"11:22:33:44:55:66", "net"⟩ : Network).essid ≠ "" :=
  (scanNetworks_dedup_spec.2.1 rawDupText).2.1 ⟨"11:22:33:44:55:66", "net"⟩ (by decide)

set_option maxRecDepth 200000 in
/-- C10: the parser pairs the i-th extracted address with the i-th
extracted essid positionally — every returned record's address and essid
sit at one common index of the two match lists — and the zip truncates to
the shorter list, so at most `min` of the two match counts records are
returned and surplus unmatched entries are dropped silently; concretely,
on a raw text whose first cell has no ESSID line, the first cell's
address is paired with the second cell's name. -/
theorem scanNetworks_positional_spec :
    (∀ raw : String,
      (scan_networks (Except.ok raw)).length ≤
        min (cellMatches raw).length (essidMatches raw).length
      ∧ ∀ r, r ∈ scan_networks (Except.ok raw) →
          ∃ i, (cellMatches raw).get? i = some r.address
            ∧ (essidMatches raw).get? i = some r.essid)
    ∧ scan_networks (Except.ok rawCrossText) = [⟨"AA:BB:CC:DD:EE:01", "net2"⟩] := by
  refine ⟨?_, by decide⟩
  intro raw
  constructor
  · have h1 := dedupNetworks_length_le ((cellMatches raw).zip (essidMatches raw)) []
    calc (scan_networks (Except.ok raw)).length
        ≤ ((cellMatches raw).zip (essidMatches raw)).length := h1
      _ = min (cellMatches raw).length (essidMatches raw).length := by
          rw [List.length_zip]
  · intro r hr
    obtain ⟨_, _, i, hi, _⟩ := dedupNetworks_first_occurrence _ [] r hr
    obtain ⟨ha, he⟩ := zip_get?_components _ _ i _ hi
    exact ⟨i, ha, he⟩

set_option maxRecDepth 200000 in
/-- C10 witness: the cross-block pairing evaluated concretely — the
record produced from `rawCrossText` takes its address from index 0 of the
address matches and its essid from index 0 of the essid matches. -/
theorem scanNetworks_positional_spec_w :
    (cellMatches rawCrossText).get? 0 = some "AA:BB:CC:DD:EE:01"
    ∧ (essidMatches rawCrossText).get? 0 = some "net2" := by
  obtain ⟨i, ha, he⟩ := (scanNetworks_positional_spec.1 rawCrossText).2
    ⟨"AA:BB:CC:DD:EE:01", "net2"⟩ (by decide)
  have hlen : (essidMatches rawCrossText).length = 1 := by decide
  obtain ⟨hlt, -⟩ := List.get?_eq_some.mp he
  rw [hlen] at hlt
  have hi : i = 0 := by omega
  exact ⟨hi ▸ ha, hi ▸ he⟩

end BleGatt
